import Mathlib

/-
  Verification development for the lumos HTTP server (src/lumos/server/app.py).

  The file shallowly embeds the request handlers of app.py:
  JSON values are a concrete inductive; the schema-to-model compiler
  json_schema_to_pydantic_types is a Lean function returning Except to model
  the Python exceptions (KeyError / TypeError) it can raise; each HTTP handler
  is a Lean function from its inputs and the outcomes of its external
  collaborators (completion library, embedding library, HTTP download, PDF
  parser) to an explicit outcome record.  Exceptions raised and caught inside
  a handler become HandlerOutcome.http; an exception that leaves the handler
  uncaught becomes HandlerOutcome.uncaught.  External libraries are opaque
  parameters; their outcomes are quantified over in the theorems.
-/

/- JSON values.  Arrays and objects are mutual inductives rather than nested
List occurrences so that decidable equality can be derived.  Non-integral
numbers carry no payload (`num`): no handler in app.py inspects a float value,
only the structural shape of a value matters here. -/
mutual

inductive Json where
  | null : Json
  | str : String → Json
  | int : Int → Json
  | num : Json
  | bool : Bool → Json
  | arr : JsonArr → Json
  | obj : JsonObj → Json
deriving DecidableEq, Repr

inductive JsonArr where
  | nil : JsonArr
  | cons : Json → JsonArr → JsonArr
deriving DecidableEq, Repr

inductive JsonObj where
  | nil : JsonObj
  | cons : String → Json → JsonObj → JsonObj
deriving DecidableEq, Repr

end

/-- Lookup of a key in a JSON object, first occurrence wins (Python dicts have
unique keys, so on faithful inputs this is exact dict lookup). -/
def JsonObj.get : JsonObj → String → Option Json
  | .nil, _ => none
  | .cons k v tl, key => if k = key then some v else tl.get key

/-- Build a JSON object from an association list (literal convenience). -/
def JsonObj.ofList : List (String × Json) → JsonObj
  | [] => .nil
  | (k, v) :: tl => .cons k v (JsonObj.ofList tl)

/-- Literal convenience for JSON object values. -/
def Json.objOf (l : List (String × Json)) : Json :=
  Json.obj (JsonObj.ofList l)

/-- The Python types a schema property can compile to: the right-hand side of
the fixed table in _json_schema_to_pydantic_types. -/
inductive PyType where
  | PyStr : PyType
  | PyInt : PyType
  | PyFloat : PyType
  | PyBool : PyType
  | PyList : PyType
  | PyDict : PyType
deriving DecidableEq, Repr

/-- An incoming JSON schema as consumed by _json_schema_to_pydantic_types:
`properties` is the dict obtained by schema.get("properties", {}) in iteration
order, each value being the raw JSON sub-schema of that property; `required`
is schema.get("required", []). -/
structure Schema where
  properties : List (String × Json)
  required : List String
deriving DecidableEq, Repr

/-- The exceptions _json_schema_to_pydantic_types can raise while reading one
property: subscripting a non-object property schema (TypeError), a missing
"type" key (KeyError), or a "type" value outside the fixed table (KeyError on
type_mapping). -/
inductive CompileError where
  | notAnObject : String → CompileError
  | missingType : String → CompileError
  | unsupportedType : String → Json → CompileError
deriving DecidableEq, Repr

/-- The fixed table type_mapping of _json_schema_to_pydantic_types; any value
that is not one of the six literal strings has no entry (so looking it up
raises in Python). -/
def type_mapping : Json → Option PyType
  | Json.str "string" => some .PyStr
  | Json.str "integer" => some .PyInt
  | Json.str "number" => some .PyFloat
  | Json.str "boolean" => some .PyBool
  | Json.str "array" => some .PyList
  | Json.str "object" => some .PyDict
  | _ => none

/-- The loop body of _json_schema_to_pydantic_types over the property list.
For each property it reads field_schema["type"], looks the value up in
type_mapping, and pairs the resulting Python type with the required flag
(membership of the field name in the required list; Python default is
Ellipsis for required and None otherwise, modelled as a Bool).  The first
failing property aborts the whole computation, as the Python exception does. -/
def compileProps (required : List String) :
    List (String × Json) → Except CompileError (List (String × PyType × Bool))
  | [] => .ok []
  | (field_name, field_schema) :: rest =>
    match field_schema with
    | Json.obj kvs =>
      match kvs.get "type" with
      | none => .error (.missingType field_name)
      | some tv =>
        match type_mapping tv with
        | none => .error (.unsupportedType field_name tv)
        | some py =>
          match compileProps required rest with
          | .error e => .error e
          | .ok tail => .ok ((field_name, py, required.contains field_name) :: tail)
    | _ => .error (.notAnObject field_name)

/-- Embedding of _json_schema_to_pydantic_types (app.py lines 52-75). -/
def json_schema_to_pydantic_types (schema : Schema) :
    Except CompileError (List (String × PyType × Bool)) :=
  compileProps schema.required schema.properties

/-- A property schema is supported exactly when it is an object whose "type"
key is present and maps to an entry of the fixed table. -/
def supportedField : Json → Bool
  | Json.obj kvs =>
    match kvs.get "type" with
    | some tv => (type_mapping tv).isSome
    | none => false
  | _ => false

/-- The Python type a supported property compiles to (defaulted outside the
supported domain; only ever used under a supportedField hypothesis). -/
def fieldType : Json → PyType
  | Json.obj kvs =>
    match kvs.get "type" with
    | some tv => (type_mapping tv).getD .PyStr
    | none => .PyStr
  | _ => .PyStr

/-- Modelled from the spec: the external pydantic library is not part of this
repository; section 3 of the spec defines validity of a payload against the
Compiled Model structurally.  A value matches a field kind when it has that
structural shape; integers also satisfy a float field (numeric coercion). -/
def matches_type : PyType → Json → Bool
  | .PyStr, Json.str _ => true
  | .PyInt, Json.int _ => true
  | .PyFloat, Json.int _ => true
  | .PyFloat, Json.num => true
  | .PyBool, Json.bool _ => true
  | .PyList, Json.arr _ => true
  | .PyDict, Json.obj _ => true
  | _, _ => false

/-- Modelled from the spec: pydantic model_validate against the compiled field
declarations.  A payload is valid when it is an object, every required field
is present, and every declared field that is present matches its kind; a
missing optional field takes the implicit null default. -/
def model_validate (fields : List (String × PyType × Bool)) (payload : Json) : Bool :=
  match payload with
  | Json.obj kvs =>
    fields.all fun f =>
      match kvs.get f.1 with
      | some v => matches_type f.2.1 v
      | none => !f.2.2
  | _ => false

/-- An HTTPException as raised by the handlers: a status code and a detail. -/
structure HTTPException where
  status_code : Nat
  detail : String
deriving DecidableEq, Repr

/-- The fixed secret the API key is compared against (app.py line 24). -/
def api_secret : String := "12345678"

/-- Detail string of the missing-key rejection. -/
def missing_key_detail : String := "API key is missing"

/-- Detail string of the invalid-key rejection. -/
def invalid_key_detail : String := "Invalid API key"

/-- Embedding of the require_api_key decorator (app.py lines 15-28): returns
the HTTPException it raises, or none when the key is accepted and the wrapped
handler runs.  A missing header and an empty-string header both hit the first
falsiness check; the Python test `not api_key.strip()` holds exactly when
every character of the key is whitespace, which is how it is written here. -/
def require_api_key (api_key : Option String) : Option HTTPException :=
  match api_key with
  | none => some ⟨401, missing_key_detail⟩
  | some k =>
    if k = "" then some ⟨401, missing_key_detail⟩
    else if k.data.all Char.isWhitespace then some ⟨401, invalid_key_detail⟩
    else if k ≠ api_secret then some ⟨401, invalid_key_detail⟩
    else none

/-- Outcome of one handler invocation: a successful JSON response, a raised
HTTPException (status code and detail), or an exception that leaves the
handler uncaught (to be handled, if at all, by the surrounding framework). -/
inductive HandlerOutcome where
  | ok : Json → HandlerOutcome
  | http : Nat → String → HandlerOutcome
  | uncaught : String → HandlerOutcome
deriving DecidableEq, Repr

/-- A chat message of the request body (role and content). -/
structure ChatMessage where
  role : String
  content : String
deriving DecidableEq, Repr

/-- The body of a completion request (class AIRequest in app.py). -/
structure AIRequest where
  messages : List ChatMessage
  response_schema : Option Schema
  examples : Option (List (String × Json))
  model : Option String
deriving DecidableEq, Repr

/-- Outcome of the external completion library lumos.call_ai_async: either a
result object (its model_dump) or a raised exception with its message. -/
inductive AIResult where
  | ok : Json → AIResult
  | raise : String → AIResult
deriving DecidableEq, Repr

/-- Detail carried by the AttributeError raised when the examples branch
dereferences ResponseModel while it is None.  Python renders the type and
attribute names in quotes; the detail is modelled without them. -/
def none_type_attr_detail : String :=
  "NoneType object has no attribute model_validate"

/-- Detail carried by the pydantic ValidationError raised when an example
output does not validate; the precise pydantic rendering is abstracted. -/
def validation_error_detail : String := "example output failed validation"

/-- Detail carried by str(e) for the exception a schema compilation raises;
Python renders the missing key in quotes, the key itself is kept here. -/
def compile_error_detail : CompileError → String
  | .notAnObject f => "property schema of " ++ f ++ " is not subscriptable"
  | .missingType _ => "type"
  | .unsupportedType _ (Json.str t) => t
  | .unsupportedType _ _ => "unhashable or unknown type key"

/-- Invocation of the external completion library at the end of the try block
of create_chat_completion: a success is returned as result.model_dump, a
raised exception is caught by the generic handler and becomes a 500. -/
structure GenOutcome where
  result : HandlerOutcome
  ai_called : Bool
deriving DecidableEq, Repr

/-- Shared tail of create_chat_completion once control reaches the call to
lumos.call_ai_async. -/
def run_call_ai (call_ai : AIResult) : GenOutcome :=
  match call_ai with
  | .ok r => ⟨.ok r, true⟩
  | .raise m => ⟨.http 500 m, true⟩

/-- The examples branch of create_chat_completion when a compiled response
model is at hand: a non-empty examples list is validated example by example
(a pydantic ValidationError is caught by the generic handler and becomes a
500 before the library call); an absent or empty list skips the branch. -/
def run_examples_branch (call_ai : AIResult) (fields : List (String × PyType × Bool)) :
    Option (List (String × Json)) → GenOutcome
  | some (ex :: exs) =>
    if (ex :: exs).all (fun p => model_validate fields p.2) then run_call_ai call_ai
    else ⟨.http 500 validation_error_detail, false⟩
  | _ => run_call_ai call_ai

/-- Embedding of the POST /generate handler create_chat_completion
(app.py lines 78-113), wrapped by require_api_key.  The outcome of the
external completion library is the opaque parameter call_ai.  The branch
structure mirrors the Python truthiness tests: the schema branch runs when
response_schema is present, the examples branch when examples is a non-empty
list.  Every exception inside the try block (KeyError from compilation,
AttributeError from dereferencing an absent ResponseModel, ValidationError
from an invalid example, any exception of the library) is caught by the
generic except and becomes a 500 whose detail is str(e). -/
def create_chat_completion (call_ai : AIResult) (api_key : Option String)
    (ai_request : AIRequest) : GenOutcome :=
  match require_api_key api_key with
  | some e => ⟨.http e.status_code e.detail, false⟩
  | none =>
    match ai_request.response_schema with
    | some s =>
      match json_schema_to_pydantic_types s with
      | .error e => ⟨.http 500 (compile_error_detail e), false⟩
      | .ok fields => run_examples_branch call_ai fields ai_request.examples
    | none =>
      match ai_request.examples with
      | some (_ :: _) => ⟨.http 500 none_type_attr_detail, false⟩
      | _ => run_call_ai call_ai

/-- The body of an embedding request (class EmbedRequest in app.py): a single
string or a list of strings, and a model identifier. -/
structure EmbedRequest where
  inputs : Sum String (List String)
  model : Option String
deriving DecidableEq, Repr

/-- Outcome of the external embedding library lumos.get_embedding. -/
inductive EmbedResult where
  | ok : Json → EmbedResult
  | raise : String → EmbedResult
deriving DecidableEq, Repr

/-- Embedding of the POST /embed handler (app.py lines 116-119), wrapped by
require_api_key.  The handler body is a single return with no try block: a
raised library exception leaves the handler uncaught. -/
def embed (get_embedding : EmbedRequest → EmbedResult) (api_key : Option String)
    (embed_request : EmbedRequest) : HandlerOutcome :=
  match require_api_key api_key with
  | some e => .http e.status_code e.detail
  | none =>
    match get_embedding embed_request with
    | .ok r => .ok r
    | .raise m => .uncaught m

/-- The body of a PDF-parse request (class PDFRequest in app.py): an optional
URL (already validated as an HttpUrl by the framework, kept as a string). -/
structure PDFRequest where
  url : Option String
deriving DecidableEq, Repr

/-- Outcome of requests.get followed by raise_for_status: the downloaded
content, or a raised requests.RequestException with its message (an HTTP
error status raises HTTPError, a RequestException subclass). -/
inductive DownloadResult where
  | ok : String → DownloadResult
  | requestException : String → DownloadResult
deriving DecidableEq, Repr

/-- Outcome of the external parser from_pdf_path together with the two
flatten calls on its result: the sections and chunks collections, or a raised
exception with its message (the parser performs no network access, so its
exceptions are not RequestExceptions). -/
inductive ParseResult where
  | ok : Json → Json → ParseResult
  | raise : String → ParseResult
deriving DecidableEq, Repr

/-- Observable outcome of one invocation of process_pdf: the response, whether
the NamedTemporaryFile was created (the with block was entered), whether it
was deleted by os.unlink before the handler returned, whether from_pdf_path
was invoked, and the bytes written to the temporary file before parsing. -/
structure PDFOutcome where
  result : HandlerOutcome
  tmp_created : Bool
  tmp_deleted : Bool
  parser_called : Bool
  tmp_content : String
deriving DecidableEq, Repr

/-- Detail of the rejection raised when neither a body nor a file arrived. -/
def no_source_detail : String := "Either a PDF URL or file upload must be provided"

/-- Detail of the 400 raised when the download fails. -/
def download_fail_detail (m : String) : String := "Failed to download PDF: " ++ m

/-- Detail of the 500 raised when processing fails. -/
def process_fail_detail (m : String) : String := "Failed to process PDF: " ++ m

/-- The inner try/finally of process_pdf (app.py lines 161-169): the parser
runs on the temporary file, and the finally block unlinks the file on both
the success and the failure path, after which the result or the 500 is
produced.  The temporary file path is abstracted: the parser outcome is a
function of the bytes written to the file. -/
def parse_phase (from_pdf_path : String → ParseResult) (content : String) : PDFOutcome :=
  match from_pdf_path content with
  | .ok sections chunks =>
    ⟨.ok (Json.objOf [("sections", sections), ("chunks", chunks)]),
      true, true, true, content⟩
  | .raise m =>
    ⟨.http 500 (process_fail_detail m), true, true, true, content⟩

/-- Embedding of the POST /book/parse-pdf handler process_pdf
(app.py lines 133-174), wrapped by require_api_key.  The uploaded file is
modelled by its bytes.  The guard rejects with 400 exactly when both the body
and the file are absent (a parsed PDFRequest instance and an UploadFile are
always truthy).  Inside the with block, a present body with a truthy url is
downloaded (a RequestException escapes the with block, which closes but does
not delete the file since delete=False, and is caught as a 400); otherwise a
present file is written; otherwise nothing is written and the empty file
reaches the parser.  The inner try/finally is parse_phase. -/
def process_pdf (download : String → DownloadResult)
    (from_pdf_path : String → ParseResult) (api_key : Option String)
    (pdf_request : Option PDFRequest) (file : Option String) : PDFOutcome :=
  match require_api_key api_key with
  | some e => ⟨.http e.status_code e.detail, false, false, false, ""⟩
  | none =>
    match pdf_request, file with
    | none, none => ⟨.http 400 no_source_detail, false, false, false, ""⟩
    | some pr, f =>
      (match pr.url with
       | some url =>
         (match download url with
          | .requestException m =>
            ⟨.http 400 (download_fail_detail m), true, false, false, ""⟩
          | .ok content => parse_phase from_pdf_path content)
       | none =>
         (match f with
          | some content => parse_phase from_pdf_path content
          | none => parse_phase from_pdf_path ""))
    | none, some content => parse_phase from_pdf_path content

/-- Concrete schema whose second property carries the unsupported type null. -/
def nullTypeSchema : Schema :=
  ⟨[("a", Json.objOf [("type", Json.str "string")]),
    ("b", Json.objOf [("type", Json.str "null")])], []⟩

/-- The two-field schema of the spec examples: a string property a and an
integer property b, with only a required. -/
def abSchema : Schema :=
  ⟨[("a", Json.objOf [("type", Json.str "string")]),
    ("b", Json.objOf [("type", Json.str "integer")])], ["a"]⟩

/-- The field declarations abSchema compiles to. -/
def abFields : List (String × PyType × Bool) :=
  [("a", PyType.PyStr, true), ("b", PyType.PyInt, false)]

/-- The payload providing only the required field a. -/
def payloadA : Json := Json.objOf [("a", Json.str "x")]

/-- The payload providing only the optional field b. -/
def payloadB : Json := Json.objOf [("b", Json.int 5)]

/-- A schema exercising all six rows of the fixed table, with nested item and
property sub-schemas on the array and object rows (the nested sub-schema of o
even uses the unsupported type null, showing it is not recursed into). -/
def allTypesSchema : Schema :=
  ⟨[("s", Json.objOf [("type", Json.str "string")]),
    ("i", Json.objOf [("type", Json.str "integer")]),
    ("n", Json.objOf [("type", Json.str "number")]),
    ("b", Json.objOf [("type", Json.str "boolean")]),
    ("a", Json.objOf [("type", Json.str "array"),
                      ("items", Json.objOf [("type", Json.str "string")])]),
    ("o", Json.objOf [("type", Json.str "object"),
                      ("properties",
                       Json.objOf [("x", Json.objOf [("type", Json.str "null")])])])],
   ["s", "i"]⟩

/-- A completion request carrying abSchema and one example whose output gives
the string field a an integer value, violating the schema. -/
def badExampleRequest : AIRequest :=
  ⟨[⟨"user", "extract"⟩], some abSchema,
   some [("q1", Json.objOf [("a", Json.int 3)])], some "gpt-4o-mini"⟩

/-- A completion request carrying a non-empty examples list but no schema. -/
def noSchemaRequest : AIRequest :=
  ⟨[⟨"user", "extract"⟩], none,
   some [("q1", Json.objOf [("a", Json.str "x")])], some "gpt-4o-mini"⟩

/-- A concrete embedding request. -/
def embedReqW : EmbedRequest := ⟨Sum.inl "hello", some "text-embedding-3-small"⟩

/-- A download that always fails with an HTTP error (requests.RequestException). -/
def dl_404 : String → DownloadResult :=
  fun _ => DownloadResult.requestException "404 Client Error"

/-- A download that always succeeds with empty content. -/
def dl_ok_empty : String → DownloadResult := fun _ => DownloadResult.ok ""

/-- A parser that always succeeds with trivial collections. -/
def parse_trivial : String → ParseResult := fun _ => ParseResult.ok Json.null Json.null

/-- A parser that always raises, as it would on an empty temporary file. -/
def parse_fail_empty : String → ParseResult := fun _ => ParseResult.raise "empty file"

/-- A request body carrying a URL. -/
def url_request : Option PDFRequest := some ⟨some "http://example.com/book.pdf"⟩

/-- A request body that is present but carries a null url. -/
def null_url_request : Option PDFRequest := some ⟨none⟩

/-- Decidable equality of Except results, used to evaluate concrete
compilations in the witnesses. -/
instance {e a : Type} [DecidableEq e] [DecidableEq a] : DecidableEq (Except e a) :=
  fun x y =>
    match x, y with
    | .ok u, .ok v => if h : u = v then isTrue (by rw [h]) else isFalse (by simp [h])
    | .error u, .error v => if h : u = v then isTrue (by rw [h]) else isFalse (by simp [h])
    | .ok _, .error _ => isFalse (by simp)
    | .error _, .ok _ => isFalse (by simp)

/-- Helper: calling the completion library sets the ai_called flag whatever
the library outcome is. -/
theorem run_call_ai_called (c : AIResult) : (run_call_ai c).ai_called = true := by
  cases c <;> rfl

/-- Helper: the parse phase records exactly the bytes handed to the parser. -/
theorem parse_phase_content (f : String → ParseResult) (content : String) :
    (parse_phase f content).tmp_content = content := by
  cases h : f content <;> simp [parse_phase, h]

/-- Helper: a raising parser turns the parse phase into a 500 response. -/
theorem parse_phase_raise (f : String → ParseResult) (content m : String)
    (h : f content = ParseResult.raise m) :
    (parse_phase f content).result = HandlerOutcome.http 500 (process_fail_detail m) := by
  simp [parse_phase, h]

/-- Helper: a wholly supported property list compiles to the pointwise image
of the fixed table, in property order, with the required flag given by
membership in the required list. -/
theorem compileProps_eq_of_supported (required : List String)
    (props : List (String × Json)) (h : ∀ p ∈ props, supportedField p.2 = true) :
    compileProps required props =
      Except.ok (props.map fun p => (p.1, fieldType p.2, required.contains p.1)) := by
  induction props with
  | nil => rfl
  | cons p rest ih =>
    obtain ⟨name, fs⟩ := p
    have hhead : supportedField fs = true := h (name, fs) (List.mem_cons_self _ _)
    have htail := ih fun q hq => h q (List.mem_cons_of_mem _ hq)
    cases fs with
    | obj kvs =>
      cases hget : kvs.get "type" with
      | none => simp [supportedField, hget] at hhead
      | some tv =>
        cases hmap : type_mapping tv with
        | none => simp [supportedField, hget, hmap] at hhead
        | some py => simp [compileProps, fieldType, hget, hmap, htail]
    | null => simp [supportedField] at hhead
    | str s => simp [supportedField] at hhead
    | int n => simp [supportedField] at hhead
    | num => simp [supportedField] at hhead
    | bool b => simp [supportedField] at hhead
    | arr xs => simp [supportedField] at hhead

/-- Helper: every field declaration a successful compilation produces carries
the required flag given by membership in the required list. -/
theorem compileProps_required_flag (required : List String)
    (props : List (String × Json)) (l : List (String × PyType × Bool))
    (h : compileProps required props = Except.ok l) :
    ∀ x ∈ l, x.2.2 = required.contains x.1 := by
  induction props generalizing l with
  | nil =>
    simp only [compileProps] at h
    cases h
    intro x hx
    simp at hx
  | cons p rest ih =>
    obtain ⟨name, fs⟩ := p
    cases fs with
    | obj kvs =>
      cases hget : kvs.get "type" with
      | none => simp [compileProps, hget] at h
      | some tv =>
        cases hmap : type_mapping tv with
        | none => simp [compileProps, hget, hmap] at h
        | some py =>
          cases hrec : compileProps required rest with
          | error e => simp [compileProps, hget, hmap, hrec] at h
          | ok tail =>
            simp only [compileProps, hget, hmap, hrec] at h
            cases h
            intro x hx
            rcases List.mem_cons.mp hx with hx | hx
            · subst hx; rfl
            · exact ih tail hrec x hx
    | null => simp [compileProps] at h
    | str s => simp [compileProps] at h
    | int n => simp [compileProps] at h
    | num => simp [compileProps] at h
    | bool b => simp [compileProps] at h
    | arr xs => simp [compileProps] at h

/-- Helper: one unsupported property makes the whole compilation fail. -/
theorem compileProps_error_of_unsupported (required : List String)
    (props : List (String × Json)) (h : ∃ p ∈ props, supportedField p.2 = false) :
    ∃ e, compileProps required props = Except.error e := by
  induction props with
  | nil => simp at h
  | cons p rest ih =>
    obtain ⟨name, fs⟩ := p
    cases fs with
    | obj kvs =>
      cases hget : kvs.get "type" with
      | none => exact ⟨CompileError.missingType name, by simp [compileProps, hget]⟩
      | some tv =>
        cases hmap : type_mapping tv with
        | none => exact ⟨CompileError.unsupportedType name tv, by simp [compileProps, hget, hmap]⟩
        | some py =>
          rcases h with ⟨q, hq, hbad⟩
          rcases List.mem_cons.mp hq with hq | hq
          · subst hq; simp [supportedField, hget, hmap] at hbad
          · rcases ih ⟨q, hq, hbad⟩ with ⟨e, he⟩
            exact ⟨e, by simp [compileProps, hget, hmap, he]⟩
    | null => exact ⟨CompileError.notAnObject name, by simp [compileProps]⟩
    | str s => exact ⟨CompileError.notAnObject name, by simp [compileProps]⟩
    | int n => exact ⟨CompileError.notAnObject name, by simp [compileProps]⟩
    | num => exact ⟨CompileError.notAnObject name, by simp [compileProps]⟩
    | bool b => exact ⟨CompileError.notAnObject name, by simp [compileProps]⟩
    | arr xs => exact ⟨CompileError.notAnObject name, by simp [compileProps]⟩

/-- C3: for every schema in which some property has a type outside the fixed
table or no type key at all, compilation fails as a hard error for the whole
schema: the result is an error value, never a partial model containing any of
the other properties. -/
theorem unsupported_type_aborts_compilation (s : Schema)
    (h : ∃ p ∈ s.properties, supportedField p.2 = false) :
    ∃ e, json_schema_to_pydantic_types s = Except.error e :=
  compileProps_error_of_unsupported s.required s.properties h

/-- Witness for C3 at a concrete schema whose property b has type null. -/
theorem unsupported_type_aborts_compilation_witness :
    (∃ p ∈ nullTypeSchema.properties, supportedField p.2 = false) ∧
    (∃ e, json_schema_to_pydantic_types nullTypeSchema = Except.error e) :=
  ⟨by decide, unsupported_type_aborts_compilation nullTypeSchema (by decide)⟩

/-- C4: for every schema whose properties all have a supported type, the
compiler produces exactly one field declaration per entry of properties, in
order and with no others, mapping each property name to the type the fixed
table assigns to its type tag (fieldType reads nothing but the type tag, so
nested object or array sub-schemas are not recursed into, only tagged as the
opaque container type), with the required flag given by membership in the
required list. -/
theorem supported_schema_compiles_to_table (s : Schema)
    (h : ∀ p ∈ s.properties, supportedField p.2 = true) :
    json_schema_to_pydantic_types s =
      Except.ok (s.properties.map fun p => (p.1, fieldType p.2, s.required.contains p.1)) :=
  compileProps_eq_of_supported s.required s.properties h

/-- Witness for C4 at a schema exercising all six table rows, whose array and
object properties carry nested sub-schemas that are left uncompiled. -/
theorem supported_schema_compiles_to_table_witness :
    (∀ p ∈ allTypesSchema.properties, supportedField p.2 = true) ∧
    json_schema_to_pydantic_types allTypesSchema = Except.ok
      [("s", PyType.PyStr, true), ("i", PyType.PyInt, true),
       ("n", PyType.PyFloat, false), ("b", PyType.PyBool, false),
       ("a", PyType.PyList, false), ("o", PyType.PyDict, false)] :=
  ⟨by decide,
   (supported_schema_compiles_to_table allTypesSchema (by decide)).trans (by decide)⟩

/-- C5: every field declaration of a compiled schema is marked required
exactly when its name is a member of the top-level required sequence; and for
the concrete schema with string a, integer b and required a, the payload
providing a validates while the payload providing only b is rejected. -/
theorem required_flag_iff_membership (s : Schema) (l : List (String × PyType × Bool))
    (h : json_schema_to_pydantic_types s = Except.ok l) :
    (∀ x ∈ l, x.2.2 = s.required.contains x.1) ∧
    (json_schema_to_pydantic_types abSchema).map
        (fun fields => (model_validate fields payloadA, model_validate fields payloadB))
      = Except.ok (true, false) :=
  ⟨compileProps_required_flag s.required s.properties l h, by decide⟩

/-- Witness for C5 at the concrete two-field schema. -/
theorem required_flag_iff_membership_witness :
    (∀ x ∈ abFields, x.2.2 = abSchema.required.contains x.1) ∧
    (json_schema_to_pydantic_types abSchema).map
        (fun fields => (model_validate fields payloadA, model_validate fields payloadB))
      = Except.ok (true, false) :=
  required_flag_iff_membership abSchema abFields (by decide)

/-- C6: the auth check rejects with 401 a missing header, an empty header, a
whitespace-only header and any value different from the configured secret,
and passes (returning none, so the wrapped handler runs) exactly on the
secret itself. -/
theorem require_api_key_spec (k : String) :
    require_api_key none = some ⟨401, missing_key_detail⟩ ∧
    require_api_key (some "") = some ⟨401, missing_key_detail⟩ ∧
    (k.data.all Char.isWhitespace = true →
      ∃ e, require_api_key (some k) = some e ∧ e.status_code = 401) ∧
    (k ≠ api_secret →
      ∃ e, require_api_key (some k) = some e ∧ e.status_code = 401) ∧
    require_api_key (some api_secret) = none := by
  refine ⟨rfl, by decide, ?_, ?_, by decide⟩
  · intro hw
    by_cases hk : k = ""
    · exact ⟨⟨401, missing_key_detail⟩, by simp [require_api_key, hk], rfl⟩
    · exact ⟨⟨401, invalid_key_detail⟩, by simp [require_api_key, hk, hw], rfl⟩
  · intro hne
    by_cases hk : k = ""
    · exact ⟨⟨401, missing_key_detail⟩, by simp [require_api_key, hk], rfl⟩
    · by_cases hw : k.data.all Char.isWhitespace = true
      · exact ⟨⟨401, invalid_key_detail⟩, by simp [require_api_key, hk, hw], rfl⟩
      · exact ⟨⟨401, invalid_key_detail⟩, by simp [require_api_key, hk, hw, hne], rfl⟩

/-- Witness for C6 at a whitespace-only key and at a plainly wrong key. -/
theorem require_api_key_spec_witness :
    ("   ".data.all Char.isWhitespace = true) ∧
    (∃ e, require_api_key (some "   ") = some e ∧ e.status_code = 401) ∧
    ("zzz" ≠ api_secret) ∧
    (∃ e, require_api_key (some "zzz") = some e ∧ e.status_code = 401) :=
  ⟨by decide, (require_api_key_spec "   ").2.2.1 (by decide),
   by decide, (require_api_key_spec "zzz").2.2.2.1 (by decide)⟩

/-- C7: when a completion request carries a schema that compiles and a list of
examples, the completion library runs only if every example output validates
against the compiled model, and when some example output fails validation the
handler answers 500 and the library is never invoked. -/
theorem examples_validated_before_ai_call (call_ai : AIResult)
    (api_key : Option String) (ai_request : AIRequest) (s : Schema)
    (fields : List (String × PyType × Bool)) (exs : List (String × Json))
    (hauth : require_api_key api_key = none)
    (hschema : ai_request.response_schema = some s)
    (hcomp : json_schema_to_pydantic_types s = Except.ok fields)
    (hexs : ai_request.examples = some exs) :
    ((create_chat_completion call_ai api_key ai_request).ai_called = true →
      ∀ ex ∈ exs, model_validate fields ex.2 = true) ∧
    ((∃ ex ∈ exs, model_validate fields ex.2 = false) →
      (create_chat_completion call_ai api_key ai_request).result
          = HandlerOutcome.http 500 validation_error_detail ∧
      (create_chat_completion call_ai api_key ai_request).ai_called = false) := by
  simp only [create_chat_completion, hauth, hschema, hcomp, hexs]
  cases exs with
  | nil =>
    constructor
    · intro _ ex hex
      simp at hex
    · rintro ⟨ex, hex, _⟩
      simp at hex
  | cons e rest =>
    simp only [run_examples_branch]
    by_cases hall : ((e :: rest).all fun p => model_validate fields p.2) = true
    · rw [if_pos hall]
      constructor
      · intro _ ex hex
        exact List.all_eq_true.mp hall ex hex
      · rintro ⟨ex, hex, hbad⟩
        have hgood := List.all_eq_true.mp hall ex hex
        simp only [hgood] at hbad
        cases hbad
    · rw [if_neg hall]
      constructor
      · intro hcalled
        simp at hcalled
      · intro _
        exact ⟨rfl, rfl⟩

/-- Witness for C7 at a request whose single example violates the schema. -/
theorem examples_validated_before_ai_call_witness :
    (∃ ex ∈ [("q1", Json.objOf [("a", Json.int 3)])],
        model_validate abFields ex.2 = false) ∧
    (create_chat_completion (AIResult.ok Json.null) (some api_secret)
        badExampleRequest).result = HandlerOutcome.http 500 validation_error_detail ∧
    (create_chat_completion (AIResult.ok Json.null) (some api_secret)
        badExampleRequest).ai_called = false :=
  ⟨by decide,
   (examples_validated_before_ai_call (AIResult.ok Json.null) (some api_secret)
      badExampleRequest abSchema abFields [("q1", Json.objOf [("a", Json.int 3)])]
      (by decide) rfl (by decide) rfl).2 (by decide)⟩

/-- C9: a completion request with a non-empty examples list and no schema hits
the AttributeError of dereferencing the absent response model; the generic
handler turns it into a 500 carrying the exception message, the completion
library is never invoked, and the failure is a server error, not a client
error. -/
theorem examples_without_schema_server_error (call_ai : AIResult)
    (api_key : Option String) (ai_request : AIRequest) (ex : String × Json)
    (rest : List (String × Json))
    (hauth : require_api_key api_key = none)
    (hschema : ai_request.response_schema = none)
    (hexs : ai_request.examples = some (ex :: rest)) :
    create_chat_completion call_ai api_key ai_request
      = ⟨HandlerOutcome.http 500 none_type_attr_detail, false⟩ := by
  simp only [create_chat_completion, hauth, hschema, hexs]

/-- Witness for C9 at a concrete schemaless request with one example. -/
theorem examples_without_schema_server_error_witness :
    create_chat_completion (AIResult.ok Json.null) (some api_secret) noSchemaRequest
      = ⟨HandlerOutcome.http 500 none_type_attr_detail, false⟩ :=
  examples_without_schema_server_error (AIResult.ok Json.null) (some api_secret)
    noSchemaRequest ("q1", Json.objOf [("a", Json.str "x")]) [] (by decide) rfl rfl

/-- C1 counterexample: on a request whose URL download raises, the handler
acquires the temporary file (delete=False) and terminates without deleting
it, refuting deletion on every exit path. -/
theorem temp_file_leak_counterexample :
    (process_pdf dl_404 parse_trivial (some api_secret) url_request none).tmp_created
        = true ∧
    (process_pdf dl_404 parse_trivial (some api_secret) url_request none).tmp_deleted
        = false := by decide

/-- C1 amended: the temporary file is deleted exactly on those executions that
reach the PDF-parsing phase (the inner try/finally unlinks it on parse success
and parse failure alike); on every other exit after acquisition, in particular
when the URL download raises, the handler terminates with the file still
present. -/
theorem temp_file_deleted_iff_parser_reached (download : String → DownloadResult)
    (from_pdf_path : String → ParseResult) (api_key : Option String)
    (pdf_request : Option PDFRequest) (file : Option String) :
    (process_pdf download from_pdf_path api_key pdf_request file).tmp_deleted
      = (process_pdf download from_pdf_path api_key pdf_request file).parser_called := by
  cases hauth : require_api_key api_key with
  | some e => simp [process_pdf, hauth]
  | none =>
    cases pdf_request with
    | none =>
      cases file with
      | none => simp [process_pdf, hauth]
      | some content =>
        cases hp : from_pdf_path content <;> simp [process_pdf, hauth, parse_phase, hp]
    | some pr =>
      cases hurl : pr.url with
      | some url =>
        cases hd : download url with
        | requestException m => simp [process_pdf, hauth, hurl, hd]
        | ok content =>
          cases hp : from_pdf_path content <;>
            simp [process_pdf, hauth, hurl, hd, parse_phase, hp]
      | none =>
        cases file with
        | some content =>
          cases hp : from_pdf_path content <;>
            simp [process_pdf, hauth, hurl, parse_phase, hp]
        | none =>
          cases hp : from_pdf_path "" <;>
            simp [process_pdf, hauth, hurl, parse_phase, hp]

/-- C2 counterexample: with a valid key and an embedding library that raises,
the embed handler ends in an uncaught exception, not in any HTTP-style
status/message pair, refuting the catch-at-the-boundary claim for this
endpoint. -/
theorem embed_uncaught_counterexample :
    embed (fun _ => EmbedResult.raise "boom") (some api_secret) embedReqW
        = HandlerOutcome.uncaught "boom" ∧
    ¬ ∃ code detail,
        embed (fun _ => EmbedResult.raise "boom") (some api_secret) embedReqW
          = HandlerOutcome.http code detail := by
  have h : embed (fun _ => EmbedResult.raise "boom") (some api_secret) embedReqW
      = HandlerOutcome.uncaught "boom" := by decide
  refine ⟨h, ?_⟩
  rintro ⟨code, detail, hc⟩
  rw [h] at hc
  cases hc

/-- C2 amended: the embed handler contains no exception handler of its own:
whenever the request passes the auth check and the embedding library raises,
the exception leaves the handler uncaught instead of being converted to a
status/message pair at the endpoint boundary. -/
theorem embed_exception_escapes_handler (get_embedding : EmbedRequest → EmbedResult)
    (api_key : Option String) (embed_request : EmbedRequest) (m : String)
    (hauth : require_api_key api_key = none)
    (hraise : get_embedding embed_request = EmbedResult.raise m) :
    embed get_embedding api_key embed_request = HandlerOutcome.uncaught m := by
  simp only [embed, hauth, hraise]

/-- Witness for the amended C2 at a concrete raising library. -/
theorem embed_exception_escapes_handler_witness :
    embed (fun _ => EmbedResult.raise "boom") (some api_secret) embedReqW
      = HandlerOutcome.uncaught "boom" :=
  embed_exception_escapes_handler (fun _ => EmbedResult.raise "boom")
    (some api_secret) embedReqW "boom" (by decide) rfl

/-- C8 counterexample: a request whose body is present with a null url and
which uploads no file supplies neither a URL nor a file, yet the handler does
not answer the no-source bad request: the empty temporary file reaches the
parser and its failure surfaces as a 500 server error. -/
theorem no_source_guard_bypassed_counterexample :
    (process_pdf dl_ok_empty parse_fail_empty (some api_secret)
        null_url_request none).result
        = HandlerOutcome.http 500 (process_fail_detail "empty file") ∧
    (process_pdf dl_ok_empty parse_fail_empty (some api_secret)
        null_url_request none).result
        ≠ HandlerOutcome.http 400 no_source_detail := by decide

/-- C8 amended: the no-source bad request fires exactly when the request body
is absent and no file is uploaded (a body with a null url and no file bypasses
it); a failing URL download answers 400 naming the download failure; a
failure of the parsing phase answers 500 carrying the underlying message. -/
theorem pdf_status_mapping (download : String → DownloadResult)
    (from_pdf_path : String → ParseResult) (api_key : Option String)
    (pdf_request : Option PDFRequest) (file : Option String)
    (hauth : require_api_key api_key = none) :
    (pdf_request = none ∧ file = none →
      (process_pdf download from_pdf_path api_key pdf_request file).result
        = HandlerOutcome.http 400 no_source_detail) ∧
    (∀ pr url m, pdf_request = some pr → pr.url = some url →
      download url = DownloadResult.requestException m →
      (process_pdf download from_pdf_path api_key pdf_request file).result
        = HandlerOutcome.http 400 (download_fail_detail m)) ∧
    (∀ m, (process_pdf download from_pdf_path api_key pdf_request file).parser_called
        = true →
      from_pdf_path
          (process_pdf download from_pdf_path api_key pdf_request file).tmp_content
        = ParseResult.raise m →
      (process_pdf download from_pdf_path api_key pdf_request file).result
        = HandlerOutcome.http 500 (process_fail_detail m)) := by
  refine ⟨?_, ?_, ?_⟩
  · rintro ⟨rfl, rfl⟩
    simp [process_pdf, hauth]
  · rintro pr url m rfl hurl hd
    simp [process_pdf, hauth, hurl, hd]
  · intro m hreach hraise
    cases pdf_request with
    | none =>
      cases file with
      | none => simp [process_pdf, hauth] at hreach
      | some content =>
        simp only [process_pdf, hauth] at hreach hraise ⊢
        rw [parse_phase_content] at hraise
        exact parse_phase_raise from_pdf_path content m hraise
    | some pr =>
      cases hurl : pr.url with
      | some url =>
        cases hd : download url with
        | requestException mm => simp [process_pdf, hauth, hurl, hd] at hreach
        | ok content =>
          simp only [process_pdf, hauth, hurl, hd] at hreach hraise ⊢
          rw [parse_phase_content] at hraise
          exact parse_phase_raise from_pdf_path content m hraise
      | none =>
        cases file with
        | some content =>
          simp only [process_pdf, hauth, hurl] at hreach hraise ⊢
          rw [parse_phase_content] at hraise
          exact parse_phase_raise from_pdf_path content m hraise
        | none =>
          simp only [process_pdf, hauth, hurl] at hreach hraise ⊢
          rw [parse_phase_content] at hraise
          exact parse_phase_raise from_pdf_path "" m hraise

/-- Witness for the amended C8 on the no-source path. -/
theorem pdf_status_mapping_witness :
    (process_pdf dl_ok_empty parse_trivial (some api_secret) none none).result
      = HandlerOutcome.http 400 no_source_detail :=
  (pdf_status_mapping dl_ok_empty parse_trivial (some api_secret) none none
    (by decide)).1 ⟨rfl, rfl⟩

/-- C10: a present request body carrying a null url with no uploaded file
bypasses the no-source check: the temporary file is created, nothing is
written to it, the empty file is handed to the parsing pipeline, and the
request is not rejected with the no-source client error. -/
theorem null_url_body_bypasses_guard (download : String → DownloadResult)
    (from_pdf_path : String → ParseResult) (api_key : Option String)
    (hauth : require_api_key api_key = none) :
    (process_pdf download from_pdf_path api_key (some ⟨none⟩) none).tmp_created
        = true ∧
    (process_pdf download from_pdf_path api_key (some ⟨none⟩) none).tmp_content
        = "" ∧
    (process_pdf download from_pdf_path api_key (some ⟨none⟩) none).parser_called
        = true ∧
    (process_pdf download from_pdf_path api_key (some ⟨none⟩) none).result
        ≠ HandlerOutcome.http 400 no_source_detail := by
  cases hp : from_pdf_path "" <;>
    simp [process_pdf, hauth, parse_phase, hp, no_source_detail, process_fail_detail]

/-- Witness for C10 at a concrete parser that raises on the empty file. -/
theorem null_url_body_bypasses_guard_witness :
    (process_pdf dl_ok_empty parse_fail_empty (some api_secret)
        (some ⟨none⟩) none).tmp_created = true ∧
    (process_pdf dl_ok_empty parse_fail_empty (some api_secret)
        (some ⟨none⟩) none).tmp_content = "" ∧
    (process_pdf dl_ok_empty parse_fail_empty (some api_secret)
        (some ⟨none⟩) none).parser_called = true ∧
    (process_pdf dl_ok_empty parse_fail_empty (some api_secret)
        (some ⟨none⟩) none).result ≠ HandlerOutcome.http 400 no_source_detail :=
  null_url_body_bypasses_guard dl_ok_empty parse_fail_empty (some api_secret)
    (by decide)
